import Mathlib

/-!
# Verification of the audio capture and live transcription pipeline

A shallow embedding of the recorder hook (`src/hooks/useAudioRecorder.ts`),
the live transcription hook (`src/hooks/useDeepgramLive.ts`) and the
`DeepgramLiveTranscription` client class, together with proofs about their
lifecycle, transcript reconciliation, frame conversion and resource handling.

The browser's event loop is single-threaded and cooperative; handlers are
modelled as pure state transformers and an operation is modelled by its
settled state.  `MediaRecorder.stop()` does not run the `dataavailable` and
`stop` listeners synchronously: it queues them as tasks that fire only after
the synchronous body of the caller has finished, so an operation whose body
calls `mediaRecorder.stop()` settles by running its whole body first and the
queued final `dataavailable` (carrying the recorder's remaining buffered
data, the `flush` argument below) and `stop` listeners afterwards.  Device
streams are identified by natural numbers; `openStreams` tracks every
acquired stream whose tracks have not been stopped, so a stream listed there
models a microphone that is still open.
-/

/-- The `RecordingState` union type of `useAudioRecorder.ts`. -/
inductive RecordingState where
  | inactive
  | recording
  | paused
  | stopped
deriving DecidableEq, Repr

/-- A blob: a MIME type label and its byte contents (`size` = length of `data`). -/
structure Blob where
  type : String
  data : List Nat
deriving DecidableEq, Repr

/-- State of the `useAudioRecorder` hook: the React state variables
(`recordingState`, `audioURL`, `error`, `duration`), the refs
(`mediaRecorderRef` as `hasRecorder`, `audioChunksRef`, `streamRef`,
`durationIntervalRef` as `timer`), the `mimeType` local captured by the stop
listener, and the device-level view `openStreams` of acquired streams whose
tracks have not been stopped. -/
structure RecorderState where
  recordingState : RecordingState
  audioURL : Option Blob
  error : Option String
  duration : Nat
  hasRecorder : Bool
  mimeType : String
  audioChunks : List (List Nat)
  streamRef : Option Nat
  openStreams : List Nat
  timer : Bool
deriving DecidableEq, Repr

/-- `if (streamRef.current) { streamRef.current.getTracks().forEach(t => t.stop()); streamRef.current = null; }` -/
def stopStreamTracks (s : RecorderState) : RecorderState :=
  match s.streamRef with
  | some sid => { s with openStreams := s.openStreams.erase sid, streamRef := none }
  | none => s

/-- The blob assembled by the stop listener:
`new Blob(audioChunksRef.current, { type: mimeType || 'audio/wav' })`. -/
def blobOf (s : RecorderState) : Blob :=
  { type := if s.mimeType = "" then "audio/wav" else s.mimeType
    data := s.audioChunks.flatten }

/-- The `mediaRecorder.addEventListener('stop', ...)` handler of
`useAudioRecorder.ts` (lines 85–119): zero chunks → error and inactive;
zero-byte blob → error and inactive; otherwise publish the artifact URL,
move to `stopped`, clear the duration interval and stop the stream tracks. -/
def stopHandler (s : RecorderState) : RecorderState :=
  if s.audioChunks = [] then
    { s with error := some "No audio data was recorded. Please try again."
             recordingState := RecordingState.inactive }
  else if (blobOf s).data.length = 0 then
    { s with error := some "Recording failed - no audio data captured."
             recordingState := RecordingState.inactive }
  else
    stopStreamTracks
      { s with audioURL := some (blobOf s)
               recordingState := RecordingState.stopped
               timer := false }

/-- The `mediaRecorder.addEventListener('dataavailable', ...)` handler:
`if (event.data && event.data.size > 0) audioChunksRef.current.push(event.data)`. -/
def dataHandler (s : RecorderState) (chunk : Option (List Nat)) : RecorderState :=
  match chunk with
  | some c =>
      if 0 < c.length then { s with audioChunks := s.audioChunks ++ [c] } else s
  | none => s

/-- `stopRecording`, settled: `if (mediaRecorderRef.current && recordingState === 'recording') mediaRecorderRef.current.stop()`.
The `stop()` call queues a final `dataavailable` event (carrying `flush`,
the recorder's remaining buffered data; `none` when a dead microphone
buffered nothing) and then the `stop` event; the body does nothing else, so
the settled state runs the data listener and then the stop listener. -/
def stopRecording (s : RecorderState) (flush : Option (List Nat)) : RecorderState :=
  if s.hasRecorder = true ∧ s.recordingState = RecordingState.recording then
    stopHandler (dataHandler s flush)
  else s

/-- The synchronous body of `resetRecording` (lines 173–201): revoke and
clear the audio URL, stop stream tracks, clear the duration interval, and
reset every state variable.  The `mediaRecorder.stop()` call at the top of
the body only queues the recorder's events; they fire after this body (see
`resetRecording`). -/
def resetRecordingBody (s : RecorderState) : RecorderState :=
  { stopStreamTracks s with
    audioURL := none
    recordingState := RecordingState.inactive
    error := none
    duration := 0
    audioChunks := []
    timer := false }

/-- `resetRecording`, settled: when the recorder is active, the body's
`mediaRecorder.stop()` queues a final `dataavailable` event (carrying
`flush`) and the `stop` event, and both fire as tasks only after the
synchronous body has already cleared the chunk buffer, the stream ref and
the timer — so the stop listener runs on the cleared state.  When the
recorder is not active nothing is queued and the body alone runs. -/
def resetRecording (s : RecorderState) (flush : Option (List Nat)) : RecorderState :=
  if s.hasRecorder = true ∧ s.recordingState = RecordingState.recording then
    stopHandler (dataHandler (resetRecordingBody s) flush)
  else
    resetRecordingBody s

/-- The MIME-type negotiation of `startRecording` (lines 63–72), given the
platform's `MediaRecorder.isTypeSupported` predicate. -/
def chooseMimeType (supported : String → Bool) : String :=
  if supported "audio/webm;codecs=opus" then "audio/webm;codecs=opus"
  else if supported "audio/webm" then "audio/webm"
  else if supported "audio/mp4" then "audio/mp4"
  else ""

/-- The synchronous prefix of `startRecording` that runs before
`await navigator.mediaDevices.getUserMedia(...)`: revoke and clear any
previous audio URL, clear the chunk buffer, the error and the duration. -/
def startRecordingPhase1 (s : RecorderState) : RecorderState :=
  { s with audioURL := none
           audioChunks := []
           error := none
           duration := 0 }

/-- The continuation of `startRecording` that runs when the `getUserMedia`
acquisition resolves with `stream`: install the stream, create the recorder
with the negotiated MIME type, start it, move to `recording` and start the
duration interval.  The resolved stream is an open device handle, so it
enters `openStreams`. -/
def startRecordingResume (s : RecorderState) (stream : Nat)
    (supported : String → Bool) : RecorderState :=
  { s with streamRef := some stream
           openStreams := stream :: s.openStreams
           hasRecorder := true
           mimeType := chooseMimeType supported
           recordingState := RecordingState.recording
           timer := true }

/-- The `catch` block of `startRecording` (lines 137–164): record the
user-facing message, move to inactive and stop any held stream's tracks
(the duration interval is not cleared there). -/
def startRecordingFail (s : RecorderState) (msg : String) : RecorderState :=
  stopStreamTracks
    { s with error := some msg
             recordingState := RecordingState.inactive }

/-- The all-idle initial state of the hook. -/
def initialRecorderState : RecorderState :=
  { recordingState := RecordingState.inactive
    audioURL := none
    error := none
    duration := 0
    hasRecorder := false
    mimeType := ""
    audioChunks := []
    streamRef := none
    openStreams := []
    timer := false }

/-! ## Frame conversion (`useDeepgramLive.ts`, onaudioprocess)

Captured samples are IEEE doubles; multiplication by `32768 = 2^15` only
shifts the exponent and is exact, `Math.min`/`Math.max` are exact, and the
`Int16Array` store truncates toward zero, so the whole conversion is exact
rational arithmetic and is embedded over `ℚ`. -/

/-- Truncation toward zero of a rational, as performed by an `Int16Array`
element store on an in-range value. -/
def ratTrunc (q : ℚ) : ℤ := if 0 ≤ q then ⌊q⌋ else ⌈q⌉

/-- `Math.max(-32768, Math.min(32767, inputData[i] * 32768))`. -/
def clampFloat (x : ℚ) : ℚ := max (-32768) (min 32767 (x * 32768))

/-- One element of the float32→int16 conversion loop:
`int16Array[i] = Math.max(-32768, Math.min(32767, inputData[i] * 32768))`,
stored into an `Int16Array` slot (truncation toward zero). -/
def floatToInt16 (x : ℚ) : ℤ := ratTrunc (clampFloat x)

/-! ## The `DeepgramLiveTranscription` client class -/

/-- State of the `DeepgramLiveTranscription` singleton: whether the
`connection` field is non-null, the `isConnected` flag, and the frames
transmitted so far through `connection.send`. -/
structure DGClient where
  connection : Bool
  isConnected : Bool
  sentFrames : List (List ℤ)
deriving DecidableEq, Repr

/-- `sendAudio(audioData)`: `if (this.connection && this.isConnected) this.connection.send(audioData); else console.warn(...)`. -/
def DGClient.sendAudio (c : DGClient) (frame : List ℤ) : DGClient :=
  if c.connection = true ∧ c.isConnected = true then
    { c with sentFrames := c.sentFrames ++ [frame] }
  else c

/-- `stopTranscription()`: `if (this.connection) { this.connection.finish(); this.isConnected = false; }`. -/
def DGClient.stopTranscription (c : DGClient) : DGClient :=
  if c.connection = true then { c with isConnected := false } else c

/-- `isConnectionActive()`: `return this.isConnected`. -/
def DGClient.isConnectionActive (c : DGClient) : Bool := c.isConnected

/-- The `LiveTranscriptionEvents.Open` listener: `this.isConnected = true`. -/
def DGClient.onOpenEvent (c : DGClient) : DGClient := { c with isConnected := true }

/-- The `LiveTranscriptionEvents.Close` listener: `this.isConnected = false`. -/
def DGClient.onCloseEvent (c : DGClient) : DGClient := { c with isConnected := false }

/-! ## The `useDeepgramLive` hook -/

/-- The `@deepgram/sdk` `LiveConnectionState` values. -/
inductive LiveConnectionState where
  | CONNECTING
  | OPEN
  | CLOSING
  | CLOSED
deriving DecidableEq, Repr

/-- A word timing entry of a transcription result. -/
structure Word where
  word : String
  start : ℚ
  «end» : ℚ
  confidence : ℚ
deriving DecidableEq, Repr

/-- The `TranscriptionResult` interface of the Deepgram client module. -/
structure TranscriptionResult where
  transcript : String
  confidence : ℚ
  is_final : Bool
  speaker : Option Nat := none
  start : Option ℚ := none
  «end» : Option ℚ := none
  words : Option (List Word) := none
deriving DecidableEq, Repr

/-- State of the `useDeepgramLive` hook: the React state variables plus the
refs (`streamRef`, `audioContextRef` as `audioContextOpen`, `processorRef`
as `processorConnected`) and the `deepgramClient` singleton it drives. -/
structure DGHookState where
  transcript : String
  interimTranscript : String
  finalTranscript : String
  confidence : ℚ
  isConnected : Bool
  isListening : Bool
  error : Option String
  connectionState : Option LiveConnectionState
  words : List Word
  streamRef : Option Nat
  audioContextOpen : Bool
  processorConnected : Bool
  client : DGClient
deriving DecidableEq, Repr

/-- The `onTranscript` callback registered by `startListening` (lines
93–107): a final event appends `' ' + result.transcript` to both
`finalTranscript` and `transcript` and clears the interim text; a non-final
event replaces the interim text; confidence is always updated, and words
are replaced when the event carries them. -/
def onTranscriptEvent (s : DGHookState) (r : TranscriptionResult) : DGHookState :=
  let s1 :=
    if r.is_final = true then
      { s with finalTranscript := s.finalTranscript ++ " " ++ r.transcript
               interimTranscript := ""
               transcript := s.transcript ++ " " ++ r.transcript }
    else
      { s with interimTranscript := r.transcript }
  let s2 := { s1 with confidence := r.confidence }
  match r.words with
  | some ws => { s2 with words := ws }
  | none => s2

/-- The `onaudioprocess` handler (lines 71–85): when
`deepgramClient.isConnectionActive()`, convert the float frame to int16 and
forward it via `sendAudio`; otherwise do nothing. -/
def onAudioProcess (s : DGHookState) (input : List ℚ) : DGHookState :=
  if s.client.isConnectionActive = true then
    { s with client := s.client.sendAudio (input.map floatToInt16) }
  else s

/-- `stopListening` (lines 125–150): clear the listening flag, stop the
Deepgram connection, disconnect and drop the processor, close the audio
context, stop the media stream's tracks, and clear `isConnected` and
`connectionState` (the latter to `null`). -/
def stopListening (s : DGHookState) : DGHookState :=
  { s with isListening := false
           client := s.client.stopTranscription
           processorConnected := false
           audioContextOpen := false
           streamRef := none
           isConnected := false
           connectionState := none }

/-- `clearTranscript` (lines 152–159). -/
def clearTranscript (s : DGHookState) : DGHookState :=
  { s with transcript := ""
           interimTranscript := ""
           finalTranscript := ""
           confidence := 0
           words := []
           error := none }

/-! ## Concrete states used in the theorems below -/

/-- A session that started recording (stream #1 acquired) and captured no
chunks yet: the state in which the stop listener runs on a dead microphone. -/
def c1FailState : RecorderState :=
  startRecordingResume (startRecordingPhase1 initialRecorderState) 1 (fun _ => true)

/-- A hook state mid-utterance, with one finalized segment and a pending
interim fragment. -/
def c2ExState : DGHookState :=
  { transcript := " hello"
    interimTranscript := "wor"
    finalTranscript := " hello"
    confidence := 9/10
    isConnected := true
    isListening := true
    error := none
    connectionState := some LiveConnectionState.OPEN
    words := []
    streamRef := some 3
    audioContextOpen := true
    processorConnected := true
    client := { connection := true, isConnected := true, sentFrames := [] } }

/-- A final-flagged transcript event. -/
def c2FinalEvent : TranscriptionResult :=
  { transcript := "world today", confidence := 49/50, is_final := true }

/-- A non-final (interim) transcript event. -/
def c2InterimEvent : TranscriptionResult :=
  { transcript := "worl", confidence := 1/2, is_final := false }

/-- A client whose channel has closed (`isConnected = false`). -/
def c4ExClient : DGClient :=
  { connection := true, isConnected := false, sentFrames := [] }

/-- The state reached by resetting while the device acquisition of a fresh
`startRecording` call is still in flight, after which the acquisition
resolves late with stream #7 and the post-`await` continuation runs. -/
def c5LateState : RecorderState :=
  startRecordingResume (resetRecording (startRecordingPhase1 initialRecorderState) none) 7
    (fun _ => true)

/-- A first recording session holding stream #1. -/
def c6FirstSession : RecorderState :=
  startRecordingResume (startRecordingPhase1 initialRecorderState) 1 (fun _ => true)

/-- The state after `startRecording` is called a second time while
`c6FirstSession` is still recording, its acquisition resolving with
stream #2. -/
def c6SecondSession : RecorderState :=
  startRecordingResume (startRecordingPhase1 c6FirstSession) 2 (fun _ => true)

/-- A freshly started recording session (recorder active on stream #1, no
chunks captured yet), used to exhibit the behaviour of reset while
recording. -/
def c9ExState : RecorderState :=
  startRecordingResume (startRecordingPhase1 initialRecorderState) 1 (fun _ => true)

/-- A listening hook state with an open connection. -/
def c8ExState : DGHookState :=
  { transcript := ""
    interimTranscript := ""
    finalTranscript := ""
    confidence := 0
    isConnected := true
    isListening := true
    error := none
    connectionState := some LiveConnectionState.OPEN
    words := []
    streamRef := some 3
    audioContextOpen := true
    processorConnected := true
    client := { connection := true, isConnected := true, sentFrames := [] } }

/-- A recording session that received one non-empty chunk and one empty
chunk (the latter is discarded by the data handler). -/
def c10ExState : RecorderState :=
  dataHandler
    (dataHandler
      (startRecordingResume (startRecordingPhase1 initialRecorderState) 2 (fun _ => true))
      (some [10, 11]))
    (some [])

/-! ## Helper lemmas -/

theorem stopStreamTracks_recordingState (s : RecorderState) :
    (stopStreamTracks s).recordingState = s.recordingState := by
  unfold stopStreamTracks
  cases hs : s.streamRef <;> simp

theorem stopStreamTracks_audioURL (s : RecorderState) :
    (stopStreamTracks s).audioURL = s.audioURL := by
  unfold stopStreamTracks
  cases hs : s.streamRef <;> simp

theorem stopStreamTracks_error (s : RecorderState) :
    (stopStreamTracks s).error = s.error := by
  unfold stopStreamTracks
  cases hs : s.streamRef <;> simp

theorem stopStreamTracks_streamRef (s : RecorderState) :
    (stopStreamTracks s).streamRef = none := by
  unfold stopStreamTracks
  cases hs : s.streamRef <;> simp [hs]

theorem stopStreamTracks_of_none (s : RecorderState) (h : s.streamRef = none) :
    stopStreamTracks s = s := by
  unfold stopStreamTracks
  rw [h]

/-- The stop listener always leaves `recordingState` at `stopped` or
`inactive`, never `recording`. -/
theorem stopHandler_not_recording (s : RecorderState) :
    (stopHandler s).recordingState ≠ RecordingState.recording := by
  unfold stopHandler
  split_ifs with h1 h2
  · simp
  · simp
  · rw [stopStreamTracks_recordingState]
    simp

theorem stopRecording_idem (s : RecorderState) (f1 f2 : Option (List Nat)) :
    stopRecording (stopRecording s f1) f2 = stopRecording s f1 := by
  unfold stopRecording
  by_cases h : s.hasRecorder = true ∧ s.recordingState = RecordingState.recording
  · rw [if_pos h, if_neg]
    rintro ⟨-, hc⟩
    exact stopHandler_not_recording _ hc
  · rw [if_neg h, if_neg h]

theorem resetRecordingBody_idem (s : RecorderState) :
    resetRecordingBody (resetRecordingBody s) = resetRecordingBody s := by
  unfold resetRecordingBody stopStreamTracks
  cases hs : s.streamRef <;> simp [hs]

/-- From any state that is not actively recording, `resetRecording` queues
no recorder events, and applying it twice gives the same settled state as
once. -/
theorem resetRecording_idem_of_not_recording (s : RecorderState)
    (f1 f2 : Option (List Nat))
    (h : ¬(s.hasRecorder = true ∧ s.recordingState = RecordingState.recording)) :
    resetRecording (resetRecording s f1) f2 = resetRecording s f1 := by
  have h2 : ¬((resetRecordingBody s).hasRecorder = true ∧
      (resetRecordingBody s).recordingState = RecordingState.recording) := by
    rintro ⟨-, hc⟩
    have hi : (resetRecordingBody s).recordingState = RecordingState.inactive := rfl
    rw [hi] at hc
    cases hc
  unfold resetRecording
  rw [if_neg h, if_neg h2]
  exact resetRecordingBody_idem s

theorem DGClient.stopTranscription_idem (c : DGClient) :
    c.stopTranscription.stopTranscription = c.stopTranscription := by
  unfold DGClient.stopTranscription
  by_cases h : c.connection = true <;> simp [h]

theorem stopListening_idem (s : DGHookState) :
    stopListening (stopListening s) = stopListening s := by
  unfold stopListening
  simp [DGClient.stopTranscription_idem]

theorem floor_le_ratTrunc (q : ℚ) : ⌊q⌋ ≤ ratTrunc q := by
  unfold ratTrunc
  split_ifs with h
  · exact le_refl _
  · exact Int.floor_le_ceil q

theorem ratTrunc_le_ceil (q : ℚ) : ratTrunc q ≤ ⌈q⌉ := by
  unfold ratTrunc
  split_ifs with h
  · exact Int.floor_le_ceil q
  · exact le_refl _

theorem le_ratTrunc_of_le (n : ℤ) (q : ℚ) (h : (n : ℚ) ≤ q) : n ≤ ratTrunc q :=
  le_trans (Int.le_floor.mpr h) (floor_le_ratTrunc q)

theorem ratTrunc_le_of_le (n : ℤ) (q : ℚ) (h : q ≤ (n : ℚ)) : ratTrunc q ≤ n :=
  le_trans (ratTrunc_le_ceil q) (Int.ceil_le.mpr h)

/-- Clamping in `ℚ` before the truncating `Int16Array` store agrees with
truncating first and clamping in `ℤ`. -/
theorem ratTrunc_clamp_comm (y : ℚ) :
    ratTrunc (max (-32768) (min 32767 y)) = max (-32768) (min 32767 (ratTrunc y)) := by
  rcases le_or_lt 32767 y with hge | hlt
  · rw [min_eq_left hge, max_eq_right (by norm_num : (-32768 : ℚ) ≤ 32767)]
    have ht : (32767 : ℤ) ≤ ratTrunc y :=
      le_ratTrunc_of_le 32767 y (by exact_mod_cast hge)
    have hl : ratTrunc (32767 : ℚ) = 32767 := by decide
    omega
  · rcases le_or_lt y (-32768) with hle | hmid
    · rw [min_eq_right (by linarith : y ≤ (32767 : ℚ)), max_eq_left hle]
      have ht : ratTrunc y ≤ (-32768 : ℤ) :=
        ratTrunc_le_of_le (-32768) y (by exact_mod_cast hle)
      have hl : ratTrunc (-32768 : ℚ) = -32768 := by decide
      omega
    · rw [min_eq_right (le_of_lt hlt), max_eq_right (le_of_lt hmid)]
      have ht1 : ratTrunc y ≤ (32767 : ℤ) :=
        ratTrunc_le_of_le 32767 y (by exact_mod_cast le_of_lt hlt)
      have ht2 : (-32768 : ℤ) ≤ ratTrunc y :=
        le_ratTrunc_of_le (-32768) y (by exact_mod_cast le_of_lt hmid)
      omega

/-! ## The claims -/

/-- C1: the claim states that every failure path of the recorder stops the
device tracks and clears the duration timer before the failure becomes
observable.  The code violates it: when the recording is stopped on a dead
microphone (no buffered data to flush, so the stop listener runs with zero
captured chunks) it sets the error and returns early, before the
track-stopping and timer-clearing code, so the microphone stream stays open
(`openStreams = [1]`, `streamRef` still set) and the duration interval keeps
firing (`timer = true`). -/
theorem zero_chunks_failure_leaves_mic_open :
    (stopRecording c1FailState none).error = some "No audio data was recorded. Please try again." ∧
    (stopRecording c1FailState none).recordingState = RecordingState.inactive ∧
    (stopRecording c1FailState none).openStreams = [1] ∧
    (stopRecording c1FailState none).streamRef = some 1 ∧
    (stopRecording c1FailState none).timer = true := by
  decide

/-- C2: a final-flagged transcript event appends its transcript to the
accumulated final text with a single space separator (one new segment) and
clears the interim text; a non-final event replaces the interim text
wholesale and leaves the accumulated final text unchanged. -/
theorem transcript_event_reconciliation (s : DGHookState) (r : TranscriptionResult) :
    (r.is_final = true →
      (onTranscriptEvent s r).finalTranscript = s.finalTranscript ++ " " ++ r.transcript ∧
      (onTranscriptEvent s r).interimTranscript = "" ∧
      (onTranscriptEvent s r).transcript = s.transcript ++ " " ++ r.transcript) ∧
    (r.is_final = false →
      (onTranscriptEvent s r).interimTranscript = r.transcript ∧
      (onTranscriptEvent s r).finalTranscript = s.finalTranscript ∧
      (onTranscriptEvent s r).transcript = s.transcript) := by
  unfold onTranscriptEvent
  cases hw : r.words <;> cases hf : r.is_final <;> simp [hf]

/-- Witness for C2 at a concrete state and concrete final/non-final events. -/
theorem transcript_event_reconciliation_witness :
    (onTranscriptEvent c2ExState c2FinalEvent).finalTranscript = " hello" ++ " " ++ "world today" ∧
    (onTranscriptEvent c2ExState c2FinalEvent).interimTranscript = "" ∧
    (onTranscriptEvent c2ExState c2InterimEvent).interimTranscript = "worl" ∧
    (onTranscriptEvent c2ExState c2InterimEvent).finalTranscript = " hello" := by
  have hfin := (transcript_event_reconciliation c2ExState c2FinalEvent).1 rfl
  have hint := (transcript_event_reconciliation c2ExState c2InterimEvent).2 rfl
  exact ⟨hfin.1, hfin.2.1, hint.1, hint.2.1⟩

/-- C3: the frame conversion computes the saturating clamp
`clamp(x * 32768, -32768, 32767)` (as stored by the truncating int16 slot):
it equals the clamp in `ℤ`, every `x ≥ 1.0` maps to `32767`, every
`x ≤ -1.0` maps to `-32768`, and the result never wraps outside
`[-32768, 32767]`. -/
theorem floatToInt16_saturating_clamp (x : ℚ) :
    floatToInt16 x = max (-32768) (min 32767 (ratTrunc (x * 32768))) ∧
    (1 ≤ x → floatToInt16 x = 32767) ∧
    (x ≤ -1 → floatToInt16 x = -32768) ∧
    (-32768 ≤ floatToInt16 x ∧ floatToInt16 x ≤ 32767) := by
  have hmain : floatToInt16 x = max (-32768) (min 32767 (ratTrunc (x * 32768))) :=
    ratTrunc_clamp_comm (x * 32768)
  refine ⟨hmain, ?_, ?_, ?_⟩
  · intro h1
    have hy : (32767 : ℚ) ≤ x * 32768 := by nlinarith
    unfold floatToInt16 clampFloat
    rw [min_eq_left hy, max_eq_right (by norm_num : (-32768 : ℚ) ≤ 32767)]
    decide
  · intro h1
    have hy : x * 32768 ≤ (-32768 : ℚ) := by nlinarith
    unfold floatToInt16 clampFloat
    rw [min_eq_right (by linarith : x * 32768 ≤ (32767 : ℚ)), max_eq_left hy]
    decide
  · rw [hmain]
    have := floor_le_ratTrunc (x * 32768)
    omega

/-- Witness for C3: the spec's boundary examples `1.5 → 32767`,
`-2.0 → -32768`, and the exact boundary samples `±1.0`. -/
theorem floatToInt16_saturating_clamp_witness :
    ((1 : ℚ) ≤ 3 / 2 ∧ floatToInt16 (3 / 2) = 32767) ∧
    ((-2 : ℚ) ≤ -1 ∧ floatToInt16 (-2) = -32768) ∧
    floatToInt16 1 = 32767 ∧ floatToInt16 (-1) = -32768 := by
  refine ⟨⟨by norm_num, (floatToInt16_saturating_clamp (3 / 2)).2.1 (by norm_num)⟩,
    ⟨by norm_num, (floatToInt16_saturating_clamp (-2)).2.2.1 (by norm_num)⟩,
    (floatToInt16_saturating_clamp 1).2.1 (by norm_num),
    (floatToInt16_saturating_clamp (-1)).2.2.1 (by norm_num)⟩

/-- C4: while the connection is not Open (the `isConnected` flag is false,
or no connection object exists), any sequence of `sendAudio` calls
transmits nothing, buffers nothing and leaves the client state unchanged. -/
theorem sendAudio_drops_when_not_open (c : DGClient) (frames : List (List ℤ))
    (h : c.isConnected = false ∨ c.connection = false) :
    frames.foldl DGClient.sendAudio c = c ∧ ∀ f, DGClient.sendAudio c f = c := by
  have hone : ∀ f, DGClient.sendAudio c f = c := by
    intro f
    unfold DGClient.sendAudio
    rcases h with h | h <;> simp [h]
  refine ⟨?_, hone⟩
  induction frames with
  | nil => rfl
  | cons f fs ih => rw [List.foldl_cons, hone f, ih]

/-- Witness for C4: two frames sent on a closed client are both dropped. -/
theorem sendAudio_drops_when_not_open_witness :
    List.foldl DGClient.sendAudio c4ExClient [[1, 2], [3]] = c4ExClient ∧
    c4ExClient.sentFrames = [] :=
  ⟨(sendAudio_drops_when_not_open c4ExClient [[1, 2], [3]] (Or.inl rfl)).1, rfl⟩

/-- C5: the claim states that a reset issued while device acquisition is in
flight discards the late acquisition, leaving Idle with the device
released.  The code violates it: `startRecording` performs no cancellation
check after its `await`, so the continuation of an acquisition that
resolves after `resetRecording` still installs the stream, starts the
recorder and timer, and moves the state to `recording` with the device held
open. -/
theorem late_acquisition_overrides_reset :
    c5LateState.recordingState = RecordingState.recording ∧
    c5LateState.streamRef = some 7 ∧
    c5LateState.openStreams = [7] ∧
    c5LateState.timer = true := by
  decide

/-- C6: the claim states that a start request while a session is already
recording is rejected or ignored and acquires no second device stream.  The
code violates it: a second `startRecording` while `c6FirstSession` is
recording proceeds, acquires stream #2 and overwrites the refs while
stream #1's tracks are never stopped, so two device streams are open at
once. -/
theorem second_start_acquires_second_stream :
    c6FirstSession.recordingState = RecordingState.recording ∧
    c6SecondSession.openStreams = [2, 1] ∧
    c6SecondSession.streamRef = some 2 ∧
    c6SecondSession.recordingState = RecordingState.recording := by
  decide

/-- C7: stopping with zero captured chunks, or with an assembled zero-byte
artifact, is a terminal empty-recording error: the error field is set, the
state returns to `inactive`, and the audio URL is left untouched (no
artifact is produced). -/
theorem empty_recording_terminal_error (s : RecorderState)
    (h : s.audioChunks = [] ∨ (blobOf s).data.length = 0) :
    (stopHandler s).error.isSome = true ∧
    (stopHandler s).recordingState = RecordingState.inactive ∧
    (stopHandler s).audioURL = s.audioURL := by
  unfold stopHandler
  rcases h with h | h
  · simp [h]
  · by_cases hc : s.audioChunks = []
    · simp [hc]
    · simp [hc, h]

/-- Witness for C7: a freshly started session that captured nothing ends in
the error branch with no artifact. -/
theorem empty_recording_terminal_error_witness :
    (stopHandler c1FailState).error.isSome = true ∧
    (stopHandler c1FailState).recordingState = RecordingState.inactive ∧
    (stopHandler c1FailState).audioURL = none := by
  have h := empty_recording_terminal_error c1FailState (Or.inl rfl)
  exact ⟨h.1, h.2.1, h.2.2.trans rfl⟩

/-- C8 counterexample: on a concrete open listening state, `stopListening`
leaves `connectionState` at `null`, not `CLOSED`, refuting the claim that
disconnect always leaves ConnectionState equal to Closed. -/
theorem stopListening_not_closed_counterexample :
    (stopListening c8ExState).connectionState ≠ some LiveConnectionState.CLOSED ∧
    (stopListening c8ExState).connectionState = none := by
  decide

/-- C8 (amended): `stopListening` is idempotent and always leaves the hook
with `connectionState = null` (no connection) and the connected and
listening flags cleared — never an Open state, but also never the `CLOSED`
enum value. -/
theorem stopListening_idempotent_null_state (s : DGHookState) :
    stopListening (stopListening s) = stopListening s ∧
    (stopListening s).connectionState = none ∧
    (stopListening s).isConnected = false ∧
    (stopListening s).isListening = false :=
  ⟨stopListening_idem s, rfl, rfl, rfl⟩

/-- C9 counterexample: reset is not idempotent.  Resetting a recording
session queues the recorder's `stop` event, which fires after the body has
cleared the chunk buffer: with nothing left to flush the listener's
zero-chunk branch sets the error, so one reset settles with
`error = "No audio data was recorded. Please try again."` while a second
reset clears it — the two end states differ, refuting the claim that
calling reset twice in a row yields the same observable end state as
calling it once. -/
theorem reset_twice_not_idempotent_counterexample :
    resetRecording (resetRecording c9ExState none) none ≠ resetRecording c9ExState none ∧
    (resetRecording c9ExState none).error =
      some "No audio data was recorded. Please try again." ∧
    (resetRecording (resetRecording c9ExState none) none).error = none := by
  decide

/-- C9 (amended): calling `stopRecording` twice in a row yields the same
settled end state as calling it once, from every state and for every final
flush; `stopListening` likewise; and `resetRecording` is idempotent from
every state that is not actively recording.  (Resetting *while* recording
is not idempotent: the queued stop listener fires on the cleared buffer
after the body and leaves an error — or, with a non-empty flush, a
published artifact — which only the second reset clears, as the
counterexample shows.) -/
theorem stop_reset_idempotent_amended (s : RecorderState) (t : DGHookState)
    (f1 f2 : Option (List Nat)) :
    stopRecording (stopRecording s f1) f2 = stopRecording s f1 ∧
    stopListening (stopListening t) = stopListening t ∧
    (¬(s.hasRecorder = true ∧ s.recordingState = RecordingState.recording) →
      resetRecording (resetRecording s f1) f2 = resetRecording s f1) :=
  ⟨stopRecording_idem s f1 f2, stopListening_idem t,
    fun h => resetRecording_idem_of_not_recording s f1 f2 h⟩

/-- Witness for the amended C9: the idle recorder state and a concrete
listening hook state. -/
theorem stop_reset_idempotent_amended_witness :
    stopRecording (stopRecording initialRecorderState none) none =
      stopRecording initialRecorderState none ∧
    stopListening (stopListening c8ExState) = stopListening c8ExState ∧
    resetRecording (resetRecording initialRecorderState none) none =
      resetRecording initialRecorderState none := by
  have h := stop_reset_idempotent_amended initialRecorderState c8ExState none none
  exact ⟨h.1, h.2.1, h.2.2 (by decide)⟩

/-- C10: the data handler discards empty chunks, so the chunk buffer only
ever holds non-empty chunks (an invariant established by `startRecording`
clearing the buffer); consequently whenever the stop listener finds at
least one chunk the assembled artifact is non-empty and the zero-byte-
artifact error branch is unreachable — the handler publishes the artifact
and moves to `stopped`. -/
theorem nonempty_chunks_artifact_positive (s : RecorderState) (ch : Option (List Nat)) :
    ((∀ c ∈ s.audioChunks, 0 < c.length) →
      ∀ c ∈ (dataHandler s ch).audioChunks, 0 < c.length) ∧
    (startRecordingPhase1 s).audioChunks = [] ∧
    ((∀ c ∈ s.audioChunks, 0 < c.length) → s.audioChunks ≠ [] →
      0 < (blobOf s).data.length ∧
      (stopHandler s).recordingState = RecordingState.stopped ∧
      (stopHandler s).audioURL = some (blobOf s) ∧
      (stopHandler s).error = s.error) := by
  refine ⟨?_, rfl, ?_⟩
  · intro hinv c hc
    cases ch with
    | none => exact hinv c hc
    | some d =>
      by_cases hd : 0 < d.length
      · simp only [dataHandler, if_pos hd, List.mem_append, List.mem_singleton] at hc
        rcases hc with hc | hc
        · exact hinv c hc
        · rw [hc]; exact hd
      · simp only [dataHandler, if_neg hd] at hc
        exact hinv c hc
  · intro hinv hne
    have hpos : 0 < (blobOf s).data.length := by
      unfold blobOf
      simp only [List.length_flatten]
      cases hl : s.audioChunks with
      | nil => exact absurd hl hne
      | cons c rest =>
        have hc : 0 < c.length := hinv c (by rw [hl]; exact List.mem_cons_self c rest)
        rw [List.map_cons, List.sum_cons]
        exact Nat.lt_of_lt_of_le hc (Nat.le_add_right _ _)
    have hz : ¬((blobOf s).data.length = 0) := by omega
    refine ⟨hpos, ?_, ?_, ?_⟩
    · unfold stopHandler
      rw [if_neg hne, if_neg hz, stopStreamTracks_recordingState]
    · unfold stopHandler
      rw [if_neg hne, if_neg hz, stopStreamTracks_audioURL]
    · unfold stopHandler
      rw [if_neg hne, if_neg hz, stopStreamTracks_error]

/-- Witness for C10: a session with one non-empty chunk (and one discarded
empty chunk) assembles a positive-size artifact and ends `stopped`. -/
theorem nonempty_chunks_artifact_positive_witness :
    0 < (blobOf c10ExState).data.length ∧
    (stopHandler c10ExState).recordingState = RecordingState.stopped ∧
    (stopHandler c10ExState).audioURL = some (blobOf c10ExState) := by
  have h := (nonempty_chunks_artifact_positive c10ExState none).2.2
    (by decide) (by decide)
  exact ⟨h.1, h.2.1, h.2.2.1⟩
